import Mathlib

/-
Shallow embedding of the two orbit-viewer scripts of the repository
(src/mgs_viewer_in_motion.py and src/mgs_viewer_in_static.py).

Modelling conventions:
* Python floats are modelled as exact rationals (ℚ).  Every float literal
  appearing in the embedded code (0.4, 5.0, 2000, 5e10, ...) denotes the
  exact rational value of the source literal.
* Qt pixel coordinates (event.x(), event.y()) and the wheel delta
  (event.angleDelta().y()) are machine integers, modelled as ℤ.
* Python `int(x)` truncates toward zero; Python float `%` follows the sign
  of the divisor; CPython `range(0, stop, step)` for a positive step has
  ceil(stop/step) elements.  These are embedded below as pyInt, pyMod and
  pyRange.
* The mutable widget state (self.rot_x, self.rot_y, self.zoom, self.index,
  self.last_mouse, plus the loaded arrays) is a structure; each Qt handler
  is a state-transition function.  self.last_mouse is set only by
  mousePressEvent / mouseMoveEvent, never in __init__, so it is an
  Option: reading it while it is none is an AttributeError, modelled by
  the handler returning none.
* The fixed-function GL modelview stack: glLoadIdentity sets the current
  matrix to the identity and glTranslatef / glRotatef multiply the current
  matrix on the right by the elementary matrix; a vertex v is transformed
  to C *ᵥ v.  Since cosine and sine of an angle in degrees are not
  computable, the rotation matrices are parametrised by the cosine and
  sine values of the angle, which is all claim C5 (composition order)
  needs.
-/

namespace Spacecraft

/-- Position or velocity sample: a 3-vector of kilometers, exact rationals. -/
abbrev Vec3 := ℚ × ℚ × ℚ

/-- Python `int(x)` on a float: truncation toward zero. -/
def pyInt (x : ℚ) : ℤ := if 0 ≤ x then ⌊x⌋ else -⌊-x⌋

/-- Python float `%`: `x % y = x - y * floor(x / y)`, result sign follows the
divisor (the only uses here have a positive divisor, the trajectory length). -/
def pyMod (x y : ℚ) : ℚ := x - y * ⌊x / y⌋

/-- CPython `range(0, stop, step)` for a positive step: the elements
`0, step, 2*step, ...` below `stop`; its length is `ceil(stop/step)`,
written with natural division as `(stop + step - 1) / step`. -/
def pyRange (stop step : ℕ) : List ℕ :=
  List.range' 0 ((stop + step - 1) / step) step

/-- Discrete input events crossing the widget boundary: pointer press,
pointer move (both with integer pixel coordinates) and wheel (with the
integer angle delta of the y axis). -/
inductive UIEvent where
  | press (x y : ℤ)
  | move (x y : ℤ)
  | wheel (delta : ℤ)

/-- Homogeneous 4x4 matrix over exact rationals, the fixed-function GL
modelview current matrix. -/
abbrev Mat4 := Matrix (Fin 4) (Fin 4) ℚ

/-- Matrix of glTranslatef(x, y, z). -/
def translationMatrix (x y z : ℚ) : Mat4 :=
  !![1, 0, 0, x;
     0, 1, 0, y;
     0, 0, 1, z;
     0, 0, 0, 1]

/-- Matrix of glRotatef(a, 1, 0, 0), given c = cos a and s = sin a
(a in degrees). -/
def rotXMatrix (c s : ℚ) : Mat4 :=
  !![1, 0, 0, 0;
     0, c, -s, 0;
     0, s, c, 0;
     0, 0, 0, 1]

/-- Matrix of glRotatef(a, 0, 1, 0), given c = cos a and s = sin a
(a in degrees). -/
def rotYMatrix (c s : ℚ) : Mat4 :=
  !![c, 0, s, 0;
     0, 1, 0, 0;
     -s, 0, c, 0;
     0, 0, 0, 1]

/-- glLoadIdentity: the current matrix becomes the identity. -/
def glLoadIdentity : Mat4 := 1

/-- glTranslatef post-multiplies the current matrix by a translation. -/
def glTranslatef (C : Mat4) (x y z : ℚ) : Mat4 := C * translationMatrix x y z

/-- glRotatef about the (1,0,0) axis post-multiplies the current matrix,
with c, s the cosine and sine of the angle. -/
def glRotatefX (C : Mat4) (c s : ℚ) : Mat4 := C * rotXMatrix c s

/-- glRotatef about the (0,1,0) axis post-multiplies the current matrix,
with c, s the cosine and sine of the angle. -/
def glRotatefY (C : Mat4) (c s : ℚ) : Mat4 := C * rotYMatrix c s

namespace Motion

/-- CONFIG["time_speed"] of src/mgs_viewer_in_motion.py (the shipped value;
the CONFIG comment documents 1.0 = real time, 10.0 = faster, 0.1 = 10x
slowdown, so update_animation below is parametrised by it). -/
def time_speed : ℚ := 5.0

/-- CONFIG["min_zoom"] of src/mgs_viewer_in_motion.py. -/
def min_zoom : ℚ := 5000

/-- CONFIG["max_zoom"] of src/mgs_viewer_in_motion.py (5e10 km). -/
def max_zoom : ℚ := 50000000000

/-- Mutable state of the animated OrbitViewer widget: the loaded arrays,
the animation index and the camera fields, plus self.last_mouse which is
unset (none) until the first mousePressEvent. -/
structure OrbitViewer where
  xyz : List Vec3
  mars_sun : Vec3
  index : ℚ
  rot_x : ℚ
  rot_y : ℚ
  zoom : ℚ
  last_mouse : Option (ℤ × ℤ)

/-- OrbitViewer.__init__: index = 0, rot_x = -40, rot_y = 30, zoom = 35000;
self.last_mouse is not assigned. -/
def initOrbitViewer (xyz : List Vec3) (mars_sun : Vec3) : OrbitViewer :=
  { xyz := xyz, mars_sun := mars_sun, index := 0,
    rot_x := -40, rot_y := 30, zoom := 35000, last_mouse := none }

/-- OrbitViewer.update_animation: index += time_speed; index %= len(xyz);
index = int(index).  The truncation to int is applied to the stored field,
not only at lookup. -/
def update_animation (ts : ℚ) (s : OrbitViewer) : OrbitViewer :=
  let i1 := s.index + ts
  let i2 := pyMod i1 (s.xyz.length : ℚ)
  { s with index := (pyInt i2 : ℚ) }

/-- OrbitViewer.wheelEvent: zoom -= delta / 120 * zoom_step with
zoom_step = 2000, then zoom = max(min_zoom, min(zoom, max_zoom)). -/
def wheelEvent (s : OrbitViewer) (delta : ℤ) : OrbitViewer :=
  let zoom_step : ℚ := 2000
  let z1 := s.zoom - (delta : ℚ) / 120 * zoom_step
  { s with zoom := max min_zoom (min z1 max_zoom) }

/-- OrbitViewer.mousePressEvent: last_mouse = (x, y). -/
def mousePressEvent (s : OrbitViewer) (x y : ℤ) : OrbitViewer :=
  { s with last_mouse := some (x, y) }

/-- OrbitViewer.mouseMoveEvent: reads self.last_mouse (AttributeError,
modelled as none, if no press or move happened before), computes
dx, dy against it, updates last_mouse and adds dy * 0.4 to rot_x and
dx * 0.4 to rot_y. -/
def mouseMoveEvent (s : OrbitViewer) (x y : ℤ) : Option OrbitViewer :=
  match s.last_mouse with
  | none => none
  | some (lx, ly) =>
    let dx := x - lx
    let dy := y - ly
    some { s with last_mouse := some (x, y),
                  rot_x := s.rot_x + (dy : ℚ) * 0.4,
                  rot_y := s.rot_y + (dx : ℚ) * 0.4 }

/-- Dispatch of one input event to the corresponding Qt handler. -/
def stepEvent (s : OrbitViewer) : UIEvent → Option OrbitViewer
  | .press x y => some (mousePressEvent s x y)
  | .move x y => mouseMoveEvent s x y
  | .wheel d => some (wheelEvent s d)

/-- Sequential processing of a list of input events; none as soon as one
handler fails. -/
def processEvents : List UIEvent → OrbitViewer → Option OrbitViewer
  | [], s => some s
  | e :: es, s =>
    match stepEvent s e with
    | none => none
    | some s1 => processEvents es s1

/-- Modelview matrix set up by OrbitViewer.paintGL: glLoadIdentity();
glTranslatef(0, 0, -zoom); glRotatef(rot_x, 1, 0, 0);
glRotatef(rot_y, 0, 1, 0); with cx, sx (resp. cy, sy) the cosine and sine
of rot_x (resp. rot_y) degrees. -/
def paintGL_modelview (zoom cx sx cy sy : ℚ) : Mat4 :=
  glRotatefY (glRotatefX (glTranslatef glLoadIdentity 0 0 (-zoom)) cx sx) cy sy

/-- Perspective arguments passed to gluPerspective. -/
structure Perspective where
  fovy : ℚ
  aspect : ℚ
  zNear : ℚ
  zFar : ℚ

/-- OrbitViewer.resizeGL: gluPerspective(45, w / h if h else 1, 1000, 1e10);
w and h are the integer viewport sizes, the aspect is float division. -/
def resizeGL (w h : ℕ) : Perspective :=
  { fovy := 45,
    aspect := if h ≠ 0 then (w : ℚ) / (h : ℚ) else 1,
    zNear := 1000,
    zFar := 10000000000 }

end Motion

namespace Static

/-- CONFIG["min_zoom"] of src/mgs_viewer_in_static.py. -/
def min_zoom : ℚ := 5000

/-- CONFIG["max_zoom"] of src/mgs_viewer_in_static.py (5e10 km). -/
def max_zoom : ℚ := 50000000000

/-- CONFIG["velocity_scale"] of src/mgs_viewer_in_static.py: km of
visualisation per km/s. -/
def velocity_scale : ℚ := 3000

/-- CONFIG["velocity_stride"] of src/mgs_viewer_in_static.py: draw every
N-th velocity vector. -/
def velocity_stride : ℕ := 10

/-- Mutable state of the static OrbitViewer widget: position and velocity
arrays and the camera fields; self.last_mouse is unset (none) until the
first mousePressEvent. -/
structure OrbitViewer where
  pos : List Vec3
  vel : List Vec3
  mars_sun : Vec3
  rot_x : ℚ
  rot_y : ℚ
  zoom : ℚ
  last_mouse : Option (ℤ × ℤ)

/-- OrbitViewer.__init__ of the static viewer: rot_x = -40, rot_y = 30,
zoom = 35000; self.last_mouse is not assigned. -/
def initOrbitViewer (pos vel : List Vec3) (mars_sun : Vec3) : OrbitViewer :=
  { pos := pos, vel := vel, mars_sun := mars_sun,
    rot_x := -40, rot_y := 30, zoom := 35000, last_mouse := none }

/-- OrbitViewer.wheelEvent of the static viewer: zoom -= delta / 120 *
zoom_step with zoom_step = 2000, then zoom = max(min_zoom, min(zoom,
max_zoom)). -/
def wheelEvent (s : OrbitViewer) (delta : ℤ) : OrbitViewer :=
  let zoom_step : ℚ := 2000
  let z1 := s.zoom - (delta : ℚ) / 120 * zoom_step
  { s with zoom := max min_zoom (min z1 max_zoom) }

/-- OrbitViewer.mousePressEvent of the static viewer: last_mouse = (x, y). -/
def mousePressEvent (s : OrbitViewer) (x y : ℤ) : OrbitViewer :=
  { s with last_mouse := some (x, y) }

/-- OrbitViewer.mouseMoveEvent of the static viewer: same mapping as the
animated one; none models the AttributeError when self.last_mouse was
never assigned. -/
def mouseMoveEvent (s : OrbitViewer) (x y : ℤ) : Option OrbitViewer :=
  match s.last_mouse with
  | none => none
  | some (lx, ly) =>
    let dx := x - lx
    let dy := y - ly
    some { s with last_mouse := some (x, y),
                  rot_x := s.rot_x + (dy : ℚ) * 0.4,
                  rot_y := s.rot_y + (dx : ℚ) * 0.4 }

/-- Dispatch of one input event to the corresponding Qt handler of the
static viewer. -/
def stepEvent (s : OrbitViewer) : UIEvent → Option OrbitViewer
  | .press x y => some (mousePressEvent s x y)
  | .move x y => mouseMoveEvent s x y
  | .wheel d => some (wheelEvent s d)

/-- Sequential processing of a list of input events by the static viewer. -/
def processEvents : List UIEvent → OrbitViewer → Option OrbitViewer
  | [], s => some s
  | e :: es, s =>
    match stepEvent s e with
    | none => none
    | some s1 => processEvents es s1

/-- One drawn velocity segment of OrbitViewer.draw_velocity_vectors: from
pos[i] to pos[i] + vel[i] * velocity_scale, componentwise. -/
def velocity_segment (s : OrbitViewer) (i : ℕ) : Vec3 × Vec3 :=
  let p := s.pos.getD i (0, 0, 0)
  let v := s.vel.getD i (0, 0, 0)
  (p, (p.1 + v.1 * velocity_scale,
       p.2.1 + v.2.1 * velocity_scale,
       p.2.2 + v.2.2 * velocity_scale))

/-- OrbitViewer.draw_velocity_vectors: for i in range(0, len(pos),
velocity_stride), emit the segment from pos[i] to
pos[i] + vel[i] * velocity_scale. -/
def draw_velocity_vectors (s : OrbitViewer) : List (Vec3 × Vec3) :=
  (pyRange s.pos.length velocity_stride).map (velocity_segment s)

/-- Modelview matrix set up by paintGL of the static viewer, identical to
the animated one: glLoadIdentity(); glTranslatef(0, 0, -zoom);
glRotatef(rot_x, 1, 0, 0); glRotatef(rot_y, 0, 1, 0). -/
def paintGL_modelview (zoom cx sx cy sy : ℚ) : Mat4 :=
  glRotatefY (glRotatefX (glTranslatef glLoadIdentity 0 0 (-zoom)) cx sx) cy sy

/-- OrbitViewer.resizeGL of the static viewer: gluPerspective(45,
w / h if h else 1, 1000, 1e10). -/
def resizeGL (w h : ℕ) : Motion.Perspective :=
  { fovy := 45,
    aspect := if h ≠ 0 then (w : ℚ) / (h : ℚ) else 1,
    zNear := 1000,
    zFar := 10000000000 }

end Static

/-- Modelled from the spec: the clamp operation in the formula
`zoom ← clamp(zoom − (delta/120)*zoom_step, min_zoom, max_zoom)`, read as
first raising the value to at least `lo` and then capping it at `hi`.
The source writes `max(min_zoom, min(zoom, max_zoom))` instead; claim C3
compares the two. -/
def spec_clamp (v lo hi : ℚ) : ℚ := min (max v lo) hi

/-- Well-formedness of an input event sequence: every pointer-move event
is preceded (anywhere earlier in the sequence) by a pointer-press event;
the flag records whether a press has been seen already. -/
def movesAfterPress : Bool → List UIEvent → Bool
  | _, [] => true
  | _, UIEvent.press _ _ :: es => movesAfterPress true es
  | b, UIEvent.move _ _ :: es => b && movesAfterPress b es
  | b, UIEvent.wheel _ :: es => movesAfterPress b es

/-- Commutation of the two clamp spellings: for lo ≤ hi, the source form
`max lo (min x hi)` agrees with the spec form `min (max x lo) hi`. -/
theorem clamp_comm (x lo hi : ℚ) (h : lo ≤ hi) :
    max lo (min x hi) = min (max x lo) hi := by
  rcases le_total x lo with h1 | h1
  · rw [min_eq_left (h1.trans h), max_eq_left h1, max_eq_right h1, min_eq_left h]
  · rcases le_total x hi with h2 | h2
    · rw [min_eq_left h2, max_eq_right h1, max_eq_left h1, min_eq_left h2]
    · rw [min_eq_right h2, max_eq_right h, max_eq_left h1, min_eq_right h2]

/-- C1: every wheel event leaves the stored zoom inside
[min_zoom, max_zoom] = [5000, 5e10], in both viewers, for every delta and
every prior state; and from a state already at max_zoom, any zoom-out
delta (negative, modelled as -(n : ℤ)) keeps the zoom exactly at
max_zoom, so repeated zoom-out deltas clamp exactly there and never
exceed it. -/
theorem wheel_zoom_bounds :
    (∀ (s : Spacecraft.Motion.OrbitViewer) (d : ℤ),
       Motion.min_zoom ≤ (Motion.wheelEvent s d).zoom
         ∧ (Motion.wheelEvent s d).zoom ≤ Motion.max_zoom)
    ∧ (∀ (s : Spacecraft.Static.OrbitViewer) (d : ℤ),
       Static.min_zoom ≤ (Static.wheelEvent s d).zoom
         ∧ (Static.wheelEvent s d).zoom ≤ Static.max_zoom)
    ∧ (∀ (s : Spacecraft.Motion.OrbitViewer) (n : ℕ),
       (Motion.wheelEvent { s with zoom := Motion.max_zoom } (-(n : ℤ))).zoom
         = Motion.max_zoom)
    ∧ (∀ (s : Spacecraft.Static.OrbitViewer) (n : ℕ),
       (Static.wheelEvent { s with zoom := Static.max_zoom } (-(n : ℤ))).zoom
         = Static.max_zoom) := by
  have hM : Motion.min_zoom ≤ Motion.max_zoom := by
    norm_num [Motion.min_zoom, Motion.max_zoom]
  have hS : Static.min_zoom ≤ Static.max_zoom := by
    norm_num [Static.min_zoom, Static.max_zoom]
  refine ⟨fun s d => ⟨le_max_left _ _, max_le hM (min_le_right _ _)⟩,
          fun s d => ⟨le_max_left _ _, max_le hS (min_le_right _ _)⟩,
          fun s n => ?_, fun s n => ?_⟩
  · show max Motion.min_zoom
      (min (Motion.max_zoom - ((-(n : ℤ) : ℤ) : ℚ) / 120 * 2000) Motion.max_zoom)
      = Motion.max_zoom
    have hz : Motion.max_zoom ≤ Motion.max_zoom - ((-(n : ℤ) : ℤ) : ℚ) / 120 * 2000 := by
      push_cast
      have : (0 : ℚ) ≤ (n : ℚ) / 120 * 2000 := by positivity
      linarith
    rw [min_eq_right hz, max_eq_right hM]
  · show max Static.min_zoom
      (min (Static.max_zoom - ((-(n : ℤ) : ℤ) : ℚ) / 120 * 2000) Static.max_zoom)
      = Static.max_zoom
    have hz : Static.max_zoom ≤ Static.max_zoom - ((-(n : ℤ) : ℤ) : ℚ) / 120 * 2000 := by
      push_cast
      have : (0 : ℚ) ≤ (n : ℚ) / 120 * 2000 := by positivity
      linarith
    rw [min_eq_right hz, max_eq_right hS]

/-- C3: the wheel handler computes the new zoom as
clamp(zoom - (delta/120)*zoom_step, min_zoom, max_zoom) with
zoom_step = 2000, in both viewers; in particular delta = +120 from the
initial zoom 35000 gives 33000 (not clamped). -/
theorem wheel_zoom_formula :
    (∀ (s : Spacecraft.Motion.OrbitViewer) (d : ℤ),
       (Motion.wheelEvent s d).zoom
         = spec_clamp (s.zoom - (d : ℚ) / 120 * 2000) Motion.min_zoom Motion.max_zoom)
    ∧ (∀ (s : Spacecraft.Static.OrbitViewer) (d : ℤ),
       (Static.wheelEvent s d).zoom
         = spec_clamp (s.zoom - (d : ℚ) / 120 * 2000) Static.min_zoom Static.max_zoom)
    ∧ (Motion.wheelEvent (Motion.initOrbitViewer [] (0, 0, 0)) 120).zoom = 33000
    ∧ (Static.wheelEvent (Static.initOrbitViewer [] [] (0, 0, 0)) 120).zoom = 33000 := by
  refine ⟨fun s d => ?_, fun s d => ?_, ?_, ?_⟩
  · show max Motion.min_zoom (min (s.zoom - (d : ℚ) / 120 * 2000) Motion.max_zoom) = _
    rw [spec_clamp, clamp_comm _ _ _ (by norm_num [Motion.min_zoom, Motion.max_zoom])]
  · show max Static.min_zoom (min (s.zoom - (d : ℚ) / 120 * 2000) Static.max_zoom) = _
    rw [spec_clamp, clamp_comm _ _ _ (by norm_num [Static.min_zoom, Static.max_zoom])]
  · norm_num [Motion.wheelEvent, Motion.initOrbitViewer, Motion.min_zoom, Motion.max_zoom]
  · norm_num [Static.wheelEvent, Static.initOrbitViewer, Static.min_zoom, Static.max_zoom]

/-- Python modulo is the identity on an argument already inside [0, L). -/
theorem pyMod_eq_self (a L : ℚ) (h0 : 0 ≤ a) (hL : a < L) : pyMod a L = a := by
  have hpos : (0 : ℚ) < L := lt_of_le_of_lt h0 hL
  rw [pyMod, show ⌊a / L⌋ = 0 from
    Int.floor_eq_iff.mpr ⟨by exact_mod_cast div_nonneg h0 hpos.le,
      by push_cast; rw [zero_add]; exact (div_lt_one hpos).mpr hL⟩]
  ring

/-- Python int() on a nonnegative float is the floor. -/
theorem pyInt_nonneg (a : ℚ) (h : 0 ≤ a) : pyInt a = ⌊a⌋ := if_pos h

/-- Single-step evaluation of the animation tick: the new stored index is
int((index + ts) mod len(xyz)), and the trajectory is untouched. -/
theorem update_animation_eval (ts : ℚ) (s : Spacecraft.Motion.OrbitViewer)
    (L : ℕ) (i j : ℚ) (hL : s.xyz.length = L) (hI : s.index = i)
    (hj : (pyInt (pyMod (i + ts) (L : ℚ)) : ℚ) = j) :
    (Motion.update_animation ts s).index = j
      ∧ (Motion.update_animation ts s).xyz.length = L := by
  refine ⟨?_, hL⟩
  show (pyInt (pyMod (s.index + ts) (s.xyz.length : ℚ)) : ℚ) = j
  rw [hL, hI, hj]

/-- C2: evaluation of update_animation at a failing input.  With
trajectory length 100, time_speed = 0.5 and initial cursor 0, the code
truncates the stored cursor to an integer every tick, so after 2 ticks the
cursor is still 0, while the specified clock law
(initial_cursor + n * time_speed) mod L gives 1.  The shipped CONFIG
comment documents time_speed 0.1 as a 10x slowdown, but any
0 < time_speed < 1 freezes the animation entirely. -/
theorem update_animation_truncates_each_tick :
    ((Motion.update_animation (0.5))^[2]
        (Motion.initOrbitViewer (List.replicate 100 ((0 : ℚ), (0 : ℚ), (0 : ℚ)))
          (0, 0, 0))).index = 0
    ∧ pyMod ((Motion.initOrbitViewer (List.replicate 100 ((0 : ℚ), (0 : ℚ), (0 : ℚ)))
          (0, 0, 0)).index + 2 * (0.5)) 100 = 1
    ∧ (0 : ℚ) ≠ 1 := by
  have hstep : (pyInt (pyMod ((0 : ℚ) + 0.5) ((100 : ℕ) : ℚ)) : ℚ) = 0 := by
    rw [show ((100 : ℕ) : ℚ) = 100 by norm_num,
      pyMod_eq_self _ _ (by norm_num) (by norm_num),
      pyInt_nonneg _ (by norm_num),
      show ⌊((0 : ℚ) + 0.5)⌋ = 0 from Int.floor_eq_iff.mpr (by norm_num)]
    norm_num
  have hlen : (Motion.initOrbitViewer (List.replicate 100 ((0 : ℚ), (0 : ℚ), (0 : ℚ)))
      (0, 0, 0)).xyz.length = 100 := by
    simp [Motion.initOrbitViewer]
  have h1 := update_animation_eval 0.5 _ 100 0 0 hlen rfl hstep
  have h2 := update_animation_eval 0.5 _ 100 0 0 h1.2 h1.1 hstep
  refine ⟨h2.1, ?_, by norm_num⟩
  show pyMod ((0 : ℚ) + 2 * 0.5) 100 = 1
  rw [pyMod_eq_self _ _ (by norm_num) (by norm_num)]
  norm_num

/-- C6: evaluation of the round-trip property at a failing input.  With
trajectory length 10 and time_speed = 2.5, L / time_speed = 4 is an
integer, but driving the animation clock for 4 ticks from cursor 0 leaves
the cursor at 8, not back at 0, because every tick truncates the stored
cursor to an integer. -/
theorem round_trip_fails_for_fractional_speed :
    ((10 : ℚ) / (2.5) = 4)
    ∧ (Motion.initOrbitViewer (List.replicate 10 ((0 : ℚ), (0 : ℚ), (0 : ℚ)))
          (0, 0, 0)).index = 0
    ∧ ((Motion.update_animation (2.5))^[4]
        (Motion.initOrbitViewer (List.replicate 10 ((0 : ℚ), (0 : ℚ), (0 : ℚ)))
          (0, 0, 0))).index = 8
    ∧ (8 : ℚ) ≠ 0 := by
  have hlen : (Motion.initOrbitViewer (List.replicate 10 ((0 : ℚ), (0 : ℚ), (0 : ℚ)))
      (0, 0, 0)).xyz.length = 10 := by
    simp [Motion.initOrbitViewer]
  have cast10 : ((10 : ℕ) : ℚ) = 10 := by norm_num
  have hs1 : (pyInt (pyMod ((0 : ℚ) + 2.5) ((10 : ℕ) : ℚ)) : ℚ) = 2 := by
    rw [cast10, pyMod_eq_self _ _ (by norm_num) (by norm_num),
      pyInt_nonneg _ (by norm_num),
      show ⌊((0 : ℚ) + 2.5)⌋ = 2 from Int.floor_eq_iff.mpr (by norm_num)]
    norm_num
  have hs2 : (pyInt (pyMod ((2 : ℚ) + 2.5) ((10 : ℕ) : ℚ)) : ℚ) = 4 := by
    rw [cast10, pyMod_eq_self _ _ (by norm_num) (by norm_num),
      pyInt_nonneg _ (by norm_num),
      show ⌊((2 : ℚ) + 2.5)⌋ = 4 from Int.floor_eq_iff.mpr (by norm_num)]
    norm_num
  have hs3 : (pyInt (pyMod ((4 : ℚ) + 2.5) ((10 : ℕ) : ℚ)) : ℚ) = 6 := by
    rw [cast10, pyMod_eq_self _ _ (by norm_num) (by norm_num),
      pyInt_nonneg _ (by norm_num),
      show ⌊((4 : ℚ) + 2.5)⌋ = 6 from Int.floor_eq_iff.mpr (by norm_num)]
    norm_num
  have hs4 : (pyInt (pyMod ((6 : ℚ) + 2.5) ((10 : ℕ) : ℚ)) : ℚ) = 8 := by
    rw [cast10, pyMod_eq_self _ _ (by norm_num) (by norm_num),
      pyInt_nonneg _ (by norm_num),
      show ⌊((6 : ℚ) + 2.5)⌋ = 8 from Int.floor_eq_iff.mpr (by norm_num)]
    norm_num
  have h1 := update_animation_eval 2.5 _ 10 0 2 hlen rfl hs1
  have h2 := update_animation_eval 2.5 _ 10 2 4 h1.2 h1.1 hs2
  have h3 := update_animation_eval 2.5 _ 10 4 6 h2.2 h2.1 hs3
  have h4 := update_animation_eval 2.5 _ 10 6 8 h3.2 h3.1 hs4
  exact ⟨by norm_num, rfl, h4.1, by norm_num⟩

/-- C4: a pointer-move event computes (dx, dy) against the last recorded
pointer position, adds dy * 0.4 to rot_x and dx * 0.4 to rot_y (no
clamping), and records the new position; zero motion leaves the rotations
unchanged; and a press at (100,100) followed by a move to (110,130) adds
12 to rot_x and 4 to rot_y. -/
theorem mouseMove_rotation_mapping :
    (∀ (s : Spacecraft.Motion.OrbitViewer) (lx ly x y : ℤ),
       Motion.mouseMoveEvent { s with last_mouse := some (lx, ly) } x y
         = some { s with rot_x := s.rot_x + ((y : ℚ) - (ly : ℚ)) * 0.4,
                         rot_y := s.rot_y + ((x : ℚ) - (lx : ℚ)) * 0.4,
                         last_mouse := some (x, y) })
    ∧ (∀ (s : Spacecraft.Motion.OrbitViewer) (lx ly : ℤ),
       Motion.mouseMoveEvent { s with last_mouse := some (lx, ly) } lx ly
         = some { s with last_mouse := some (lx, ly) })
    ∧ (∀ t : Spacecraft.Motion.OrbitViewer,
       Motion.mouseMoveEvent (Motion.mousePressEvent t 100 100) 110 130
         = some { t with rot_x := t.rot_x + 12, rot_y := t.rot_y + 4,
                         last_mouse := some (110, 130) }) := by
  have key : ∀ (s : Spacecraft.Motion.OrbitViewer) (lx ly x y : ℤ),
      Motion.mouseMoveEvent { s with last_mouse := some (lx, ly) } x y
        = some { s with rot_x := s.rot_x + ((y : ℚ) - (ly : ℚ)) * 0.4,
                        rot_y := s.rot_y + ((x : ℚ) - (lx : ℚ)) * 0.4,
                        last_mouse := some (x, y) } := by
    intro s lx ly x y
    show some _ = some _
    have hx : ((x - lx : ℤ) : ℚ) = (x : ℚ) - (lx : ℚ) := by push_cast; ring
    have hy : ((y - ly : ℤ) : ℚ) = (y : ℚ) - (ly : ℚ) := by push_cast; ring
    cases s
    simp only [Motion.mouseMoveEvent, hx, hy]
  refine ⟨key, fun s lx ly => ?_, fun t => ?_⟩
  · rw [key]
    cases s
    simp
  · rw [show Motion.mousePressEvent t 100 100
        = { t with last_mouse := some (100, 100) } from rfl, key]
    cases t
    norm_num

/-- C5: the per-frame view transform set up by paintGL is, for every
vertex, the translation by (0, 0, -zoom) applied outermost, then the
rotation about the X axis by rot_x degrees, then the rotation about the
Y axis by rot_y degrees: M v = T(0,0,-zoom) (Rx (Ry v)), in both
viewers, for any cosine/sine values cx, sx, cy, sy of the two angles. -/
theorem paintGL_transform_order :
    ∀ (zoom cx sx cy sy : ℚ) (v : Fin 4 → ℚ),
      (Motion.paintGL_modelview zoom cx sx cy sy).mulVec v
        = (translationMatrix 0 0 (-zoom)).mulVec
            ((rotXMatrix cx sx).mulVec ((rotYMatrix cy sy).mulVec v))
      ∧ (Static.paintGL_modelview zoom cx sx cy sy).mulVec v
        = (translationMatrix 0 0 (-zoom)).mulVec
            ((rotXMatrix cx sx).mulVec ((rotYMatrix cy sy).mulVec v)) := by
  intro zoom cx sx cy sy v
  constructor <;>
    simp [Motion.paintGL_modelview, Static.paintGL_modelview, glRotatefY,
      glRotatefX, glTranslatef, glLoadIdentity, Matrix.mulVec_mulVec,
      Matrix.one_mul, Matrix.mul_assoc]

/-- C7: the static viewer draws one velocity segment exactly for the
sample indices that are multiples of velocity_stride below the sample
count (each segment going from the sample position to
position + velocity * velocity_scale, as velocity_segment records); with
25 samples that is exactly the three segments at indices 0, 10 and 20. -/
theorem velocity_vectors_stride :
    (∀ (s : Spacecraft.Static.OrbitViewer) (i : ℕ),
       i ∈ pyRange s.pos.length Static.velocity_stride
         ↔ i < s.pos.length ∧ i % Static.velocity_stride = 0)
    ∧ (∀ s : Spacecraft.Static.OrbitViewer, s.pos.length = 25 →
       Static.draw_velocity_vectors s
         = [Static.velocity_segment s 0, Static.velocity_segment s 10,
            Static.velocity_segment s 20]) := by
  constructor
  · intro s i
    simp only [pyRange, Static.velocity_stride, List.mem_range']
    constructor
    · rintro ⟨j, hj, rfl⟩
      omega
    · rintro ⟨h1, h2⟩
      exact ⟨i / 10, by omega, by omega⟩
  · intro s h
    unfold Static.draw_velocity_vectors
    rw [h]
    rfl

/-- C8: resizeGL always requests a perspective projection with a field of
view of 45 degrees, near plane 1000 and far plane 1e10; the aspect ratio
is w / h when the height is nonzero and 1 when the height is 0, so the
division by the height is never taken at height 0, in both viewers. -/
theorem resizeGL_projection :
    ∀ (w h : ℕ),
      ((Motion.resizeGL w h).fovy = 45
        ∧ (Motion.resizeGL w h).zNear = 1000
        ∧ (Motion.resizeGL w h).zFar = 10000000000
        ∧ (h ≠ 0 → (Motion.resizeGL w h).aspect = (w : ℚ) / (h : ℚ))
        ∧ (h = 0 → (Motion.resizeGL w h).aspect = 1))
      ∧ ((Static.resizeGL w h).fovy = 45
        ∧ (Static.resizeGL w h).zNear = 1000
        ∧ (Static.resizeGL w h).zFar = 10000000000
        ∧ (h ≠ 0 → (Static.resizeGL w h).aspect = (w : ℚ) / (h : ℚ))
        ∧ (h = 0 → (Static.resizeGL w h).aspect = 1)) := by
  intro w h
  constructor <;> refine ⟨rfl, rfl, rfl, fun hh => ?_, fun hh => ?_⟩ <;>
    simp [Motion.resizeGL, Static.resizeGL, hh]

/-- Witness for C7: a concrete static viewer with 25 samples draws exactly
the segments at indices 0, 10 and 20. -/
theorem velocity_vectors_stride_witness :
    (Static.initOrbitViewer (List.replicate 25 ((0 : ℚ), (0 : ℚ), (0 : ℚ)))
        (List.replicate 25 ((0 : ℚ), (0 : ℚ), (0 : ℚ))) (0, 0, 0)).pos.length = 25
    ∧ Static.draw_velocity_vectors
        (Static.initOrbitViewer (List.replicate 25 ((0 : ℚ), (0 : ℚ), (0 : ℚ)))
          (List.replicate 25 ((0 : ℚ), (0 : ℚ), (0 : ℚ))) (0, 0, 0))
      = [Static.velocity_segment
            (Static.initOrbitViewer (List.replicate 25 ((0 : ℚ), (0 : ℚ), (0 : ℚ)))
              (List.replicate 25 ((0 : ℚ), (0 : ℚ), (0 : ℚ))) (0, 0, 0)) 0,
         Static.velocity_segment
            (Static.initOrbitViewer (List.replicate 25 ((0 : ℚ), (0 : ℚ), (0 : ℚ)))
              (List.replicate 25 ((0 : ℚ), (0 : ℚ), (0 : ℚ))) (0, 0, 0)) 10,
         Static.velocity_segment
            (Static.initOrbitViewer (List.replicate 25 ((0 : ℚ), (0 : ℚ), (0 : ℚ)))
              (List.replicate 25 ((0 : ℚ), (0 : ℚ), (0 : ℚ))) (0, 0, 0)) 20] :=
  ⟨by simp [Static.initOrbitViewer],
   velocity_vectors_stride.2 _ (by simp [Static.initOrbitViewer])⟩

/-- Witness for C8: the 1200x800 viewport of the main window gets aspect
1200/800, and a degenerate viewport of height 0 gets aspect 1. -/
theorem resizeGL_projection_witness :
    ((800 : ℕ) ≠ 0 ∧ (Motion.resizeGL 1200 800).aspect
        = ((1200 : ℕ) : ℚ) / ((800 : ℕ) : ℚ))
    ∧ (Static.resizeGL 1200 0).aspect = 1 :=
  ⟨⟨by decide, (resizeGL_projection 1200 800).1.2.2.2.1 (by decide)⟩,
   (resizeGL_projection 1200 0).2.2.2.2.2 rfl⟩

/-- Counterexample for C9: a pointer-move event arriving before any
pointer-press crashes both viewers (AttributeError on the unset
self.last_mouse), so the handlers are not total over arbitrary event
sequences. -/
theorem move_before_press_crashes :
    Motion.processEvents [UIEvent.move 5 7] (Motion.initOrbitViewer [] (0, 0, 0)) = none
    ∧ Static.processEvents [UIEvent.move 5 7]
        (Static.initOrbitViewer [] [] (0, 0, 0)) = none :=
  ⟨rfl, rfl⟩

/-- Totality of the animated viewer event loop on well-formed sequences:
if every pointer-move is preceded by a press (tracked by the flag b), and
last_mouse is already set whenever b is true, processing never fails. -/
theorem processEvents_total_motion (evs : List UIEvent) :
    ∀ (b : Bool) (s : Spacecraft.Motion.OrbitViewer),
      movesAfterPress b evs = true → (b = true → s.last_mouse ≠ none) →
      (Motion.processEvents evs s).isSome := by
  induction evs with
  | nil => intro b s _ _; rfl
  | cons e es ih =>
    intro b s hok hinv
    cases e with
    | press x y =>
      show (Motion.processEvents es (Motion.mousePressEvent s x y)).isSome
      exact ih true _ hok (fun _ => Option.some_ne_none _)
    | move x y =>
      have hok' : (b && movesAfterPress b es) = true := hok
      obtain ⟨hb, hes⟩ := Bool.and_eq_true_iff.mp hok'
      cases hml : s.last_mouse with
      | none => exact absurd hml (hinv hb)
      | some p =>
        obtain ⟨lx, ly⟩ := p
        have hmv : Motion.mouseMoveEvent s x y
            = some { s with last_mouse := some (x, y),
                            rot_x := s.rot_x + ((y - ly : ℤ) : ℚ) * 0.4,
                            rot_y := s.rot_y + ((x - lx : ℤ) : ℚ) * 0.4 } := by
          unfold Motion.mouseMoveEvent
          rw [hml]
        have hproc : Motion.processEvents (UIEvent.move x y :: es) s
            = Motion.processEvents es
                { s with last_mouse := some (x, y),
                         rot_x := s.rot_x + ((y - ly : ℤ) : ℚ) * 0.4,
                         rot_y := s.rot_y + ((x - lx : ℤ) : ℚ) * 0.4 } := by
          show (match Motion.stepEvent s (UIEvent.move x y) with
                | none => none
                | some s1 => Motion.processEvents es s1) = _
          rw [show Motion.stepEvent s (UIEvent.move x y)
              = Motion.mouseMoveEvent s x y from rfl, hmv]
        rw [hproc]
        exact ih b _ hes (fun _ => Option.some_ne_none _)
    | wheel d =>
      show (Motion.processEvents es (Motion.wheelEvent s d)).isSome
      exact ih b _ hok (fun hb => hinv hb)

/-- Totality of the static viewer event loop on well-formed sequences,
same argument as for the animated viewer. -/
theorem processEvents_total_static (evs : List UIEvent) :
    ∀ (b : Bool) (s : Spacecraft.Static.OrbitViewer),
      movesAfterPress b evs = true → (b = true → s.last_mouse ≠ none) →
      (Static.processEvents evs s).isSome := by
  induction evs with
  | nil => intro b s _ _; rfl
  | cons e es ih =>
    intro b s hok hinv
    cases e with
    | press x y =>
      show (Static.processEvents es (Static.mousePressEvent s x y)).isSome
      exact ih true _ hok (fun _ => Option.some_ne_none _)
    | move x y =>
      have hok' : (b && movesAfterPress b es) = true := hok
      obtain ⟨hb, hes⟩ := Bool.and_eq_true_iff.mp hok'
      cases hml : s.last_mouse with
      | none => exact absurd hml (hinv hb)
      | some p =>
        obtain ⟨lx, ly⟩ := p
        have hmv : Static.mouseMoveEvent s x y
            = some { s with last_mouse := some (x, y),
                            rot_x := s.rot_x + ((y - ly : ℤ) : ℚ) * 0.4,
                            rot_y := s.rot_y + ((x - lx : ℤ) : ℚ) * 0.4 } := by
          unfold Static.mouseMoveEvent
          rw [hml]
        have hproc : Static.processEvents (UIEvent.move x y :: es) s
            = Static.processEvents es
                { s with last_mouse := some (x, y),
                         rot_x := s.rot_x + ((y - ly : ℤ) : ℚ) * 0.4,
                         rot_y := s.rot_y + ((x - lx : ℤ) : ℚ) * 0.4 } := by
          show (match Static.stepEvent s (UIEvent.move x y) with
                | none => none
                | some s1 => Static.processEvents es s1) = _
          rw [show Static.stepEvent s (UIEvent.move x y)
              = Static.mouseMoveEvent s x y from rfl, hmv]
        rw [hproc]
        exact ih b _ hes (fun _ => Option.some_ne_none _)
    | wheel d =>
      show (Static.processEvents es (Static.wheelEvent s d)).isSome
      exact ih b _ hok (fun hb => hinv hb)

/-- C9 (amended): starting from the freshly constructed widget, every
event sequence in which each pointer-move is preceded by some earlier
pointer-press is processed without failure by both viewers; the original
claim is refuted by move_before_press_crashes, since the handlers do fail
on a move that arrives before any press. -/
theorem handlers_total_after_press :
    ∀ (xyz pos vel : List Vec3) (ms : Vec3) (evs : List UIEvent),
      movesAfterPress false evs = true →
      (Motion.processEvents evs (Motion.initOrbitViewer xyz ms)).isSome
      ∧ (Static.processEvents evs (Static.initOrbitViewer pos vel ms)).isSome :=
  fun _xyz _pos _vel _ms evs hok =>
    ⟨processEvents_total_motion evs false _ hok (fun h => Bool.noConfusion h),
     processEvents_total_static evs false _ hok (fun h => Bool.noConfusion h)⟩

/-- Witness for C9 (amended): the sequence press, move, wheel is
well-formed and both viewers process it without failure. -/
theorem handlers_total_after_press_witness :
    movesAfterPress false [UIEvent.press 1 2, UIEvent.move 3 4, UIEvent.wheel 120] = true
    ∧ (Motion.processEvents [UIEvent.press 1 2, UIEvent.move 3 4, UIEvent.wheel 120]
        (Motion.initOrbitViewer [] (0, 0, 0))).isSome
    ∧ (Static.processEvents [UIEvent.press 1 2, UIEvent.move 3 4, UIEvent.wheel 120]
        (Static.initOrbitViewer [] [] (0, 0, 0))).isSome :=
  ⟨rfl,
   (handlers_total_after_press [] [] [] (0, 0, 0)
     [UIEvent.press 1 2, UIEvent.move 3 4, UIEvent.wheel 120] rfl).1,
   (handlers_total_after_press [] [] [] (0, 0, 0)
     [UIEvent.press 1 2, UIEvent.move 3 4, UIEvent.wheel 120] rfl).2⟩

/-- C10: each mutator touches only its own fields.  A wheel event changes
only the zoom (rotations, animation index, last pointer position and the
loaded data are unchanged); a successful pointer-move changes only the
rotations and the last pointer position (zoom and index unchanged); an
animation tick changes only the index (zoom, rotations, last pointer
position and data unchanged); likewise in the static viewer. -/
theorem handler_frame_conditions :
    (∀ (s : Spacecraft.Motion.OrbitViewer) (d : ℤ),
       (Motion.wheelEvent s d).rot_x = s.rot_x
       ∧ (Motion.wheelEvent s d).rot_y = s.rot_y
       ∧ (Motion.wheelEvent s d).index = s.index
       ∧ (Motion.wheelEvent s d).last_mouse = s.last_mouse
       ∧ (Motion.wheelEvent s d).xyz = s.xyz)
    ∧ (∀ (s : Spacecraft.Motion.OrbitViewer) (lx ly x y : ℤ),
       (Motion.mouseMoveEvent { s with last_mouse := some (lx, ly) } x y).map
           Motion.OrbitViewer.zoom = some s.zoom
       ∧ (Motion.mouseMoveEvent { s with last_mouse := some (lx, ly) } x y).map
           Motion.OrbitViewer.index = some s.index
       ∧ (Motion.mouseMoveEvent { s with last_mouse := some (lx, ly) } x y).map
           Motion.OrbitViewer.xyz = some s.xyz)
    ∧ (∀ (ts : ℚ) (s : Spacecraft.Motion.OrbitViewer),
       (Motion.update_animation ts s).zoom = s.zoom
       ∧ (Motion.update_animation ts s).rot_x = s.rot_x
       ∧ (Motion.update_animation ts s).rot_y = s.rot_y
       ∧ (Motion.update_animation ts s).last_mouse = s.last_mouse
       ∧ (Motion.update_animation ts s).xyz = s.xyz)
    ∧ (∀ (s : Spacecraft.Static.OrbitViewer) (d : ℤ),
       (Static.wheelEvent s d).rot_x = s.rot_x
       ∧ (Static.wheelEvent s d).rot_y = s.rot_y
       ∧ (Static.wheelEvent s d).last_mouse = s.last_mouse
       ∧ (Static.wheelEvent s d).pos = s.pos
       ∧ (Static.wheelEvent s d).vel = s.vel)
    ∧ (∀ (s : Spacecraft.Static.OrbitViewer) (lx ly x y : ℤ),
       (Static.mouseMoveEvent { s with last_mouse := some (lx, ly) } x y).map
           Static.OrbitViewer.zoom = some s.zoom) :=
  ⟨fun _ _ => ⟨rfl, rfl, rfl, rfl, rfl⟩,
   fun _ _ _ _ _ => ⟨rfl, rfl, rfl⟩,
   fun _ _ => ⟨rfl, rfl, rfl, rfl, rfl⟩,
   fun _ _ => ⟨rfl, rfl, rfl, rfl, rfl⟩,
   fun _ _ _ _ _ => rfl⟩

end Spacecraft
